import Mathlib

/-!
Verification of the thread-state cache/datastore tier of a chatbot backend.

The tier consists of a Fast Store (an in-process dict, `LocalCache`, or an
external Redis cache, `RedisClient`), a Durable Store (`PostgresClient`
behind a `Datastore` wrapper), a `CacheManager` unifying the fast tier, and
the request handlers in `server.py` composing both tiers.

Modelling conventions:
* Python dicts are association lists with insertion order preserved and
  in-place value replacement.
* Python floats carrying epoch timestamps are modelled as whole-second
  naturals; feedback scores as rationals.
* `datetime.fromtimestamp(t).strftime("%Y-%m-%d %H:%M:%S.%f")` is modelled
  by `fmtEpoch` (timezone fixed to UTC, microseconds zero).  Python caps
  `datetime` years at 9999, and on that domain the fixed-width digit
  construction below coincides with `strftime`.
* Loosely typed Python timestamp arguments (str / float / datetime / None)
  are modelled by the inductive `PyTime`; exceptions by `Except`.
-/

deriving instance DecidableEq for Except

/-- A conversation message as stored by the system: role, content, textual
timestamp, and an optional feedback score. -/
structure Msg where
  role : String
  content : String
  timestamp : String
  feedback : Option ℚ := none
deriving DecidableEq

/-- The decimal digit character for `n % 10`. -/
def digitCh (n : Nat) : Char := Char.ofNat (48 + n % 10)

/-- Two-digit zero-padded rendering (`%m`, `%d`, `%H`, `%M`, `%S`). -/
def pad2 (n : Nat) : List Char := [digitCh (n / 10), digitCh n]

/-- Four-digit zero-padded rendering (`%Y`, for years up to 9999). -/
def pad4 (n : Nat) : List Char :=
  [digitCh (n / 1000), digitCh (n / 100), digitCh (n / 10), digitCh n]

/-- Six-digit zero-padded rendering (`%f`). -/
def pad6 (n : Nat) : List Char :=
  [digitCh (n / 100000), digitCh (n / 10000), digitCh (n / 1000),
   digitCh (n / 100), digitCh (n / 10), digitCh n]

/-- Civil date from a count of days since 1970-01-01 (proleptic Gregorian),
the standard era-based conversion used by C and Python date libraries. -/
def civilFromDays (days : Nat) : Nat × Nat × Nat :=
  let z := days + 719468
  let era := z / 146097
  let doe := z % 146097
  let yoe := (doe - doe / 1460 + doe / 36524 - doe / 146096) / 365
  let y := yoe + era * 400
  let doy := doe - (365 * yoe + yoe / 4 - yoe / 100)
  let mp := (5 * doy + 2) / 153
  let d := doy - (153 * mp + 2) / 5 + 1
  let m := if mp < 10 then mp + 3 else mp - 9
  (if m ≤ 2 then y + 1 else y, m, d)

/-- Model of `datetime.fromtimestamp(sec).strftime("%Y-%m-%d %H:%M:%S.%f")`
for a whole-second epoch `sec` (so `%f` renders as `000000`). -/
def fmtEpoch (sec : Nat) : String :=
  let days := sec / 86400
  let rem := sec % 86400
  let ymd := civilFromDays days
  String.mk
    (pad4 ymd.1 ++ ['-'] ++ pad2 ymd.2.1 ++ ['-'] ++ pad2 ymd.2.2 ++ [' '] ++
     pad2 (rem / 3600) ++ [':'] ++ pad2 (rem % 3600 / 60) ++ [':'] ++
     pad2 (rem % 60) ++ ['.'] ++ pad6 0)

/-- Numeric value of a list of decimal digit characters. -/
def digitsToNat (l : List Char) : Nat :=
  l.foldl (fun a c => a * 10 + (c.toNat - 48)) 0

/-- Acceptance of the `HH:MM:SS[.ffffff]` tail by `datetime.fromisoformat`. -/
def isoTimeOk : List Char → Bool
  | h1 :: h2 :: ':' :: m1 :: m2 :: ':' :: s1 :: s2 :: rest =>
    [h1, h2, m1, m2, s1, s2].all Char.isDigit &&
    digitsToNat [h1, h2] < 24 && digitsToNat [m1, m2] < 60 &&
    digitsToNat [s1, s2] < 60 &&
    (match rest with
     | [] => true
     | '.' :: frac => 1 ≤ frac.length && frac.length ≤ 6 && frac.all Char.isDigit
     | _ => false)
  | _ => false

/-- Model of the strings accepted by `datetime.fromisoformat`: a full
`YYYY-MM-DD` date, optionally followed by a `' '` or `'T'` separator and a
`HH:MM:SS[.ffffff]` time, with in-range fields. -/
def pyFromIsoformatOk (s : String) : Bool :=
  match s.data with
  | y1 :: y2 :: y3 :: y4 :: '-' :: o1 :: o2 :: '-' :: d1 :: d2 :: rest =>
    [y1, y2, y3, y4, o1, o2, d1, d2].all Char.isDigit &&
    1 ≤ digitsToNat [o1, o2] && digitsToNat [o1, o2] ≤ 12 &&
    1 ≤ digitsToNat [d1, d2] && digitsToNat [d1, d2] ≤ 31 &&
    (match rest with
     | [] => true
     | ' ' :: t => isoTimeOk t
     | 'T' :: t => isoTimeOk t
     | _ => false)
  | _ => false

/-- The single canonical textual timestamp form produced by
`strftime("%Y-%m-%d %H:%M:%S.%f")`: exactly `dddd-dd-dd dd:dd:dd.dddddd`. -/
def canonicalForm (s : String) : Bool :=
  match s.data with
  | [y1, y2, y3, y4, '-', o1, o2, '-', d1, d2, ' ',
     h1, h2, ':', n1, n2, ':', s1, s2, '.', u1, u2, u3, u4, u5, u6] =>
    [y1, y2, y3, y4, o1, o2, d1, d2, h1, h2, n1, n2, s1, s2,
     u1, u2, u3, u4, u5, u6].all Char.isDigit
  | _ => false

/-- Lookup in a Python dict modelled as an association list. -/
def dictLookup {α : Type} (l : List (String × α)) (k : String) : Option α :=
  match l with
  | [] => none
  | (k1, v) :: rest => if k1 = k then some v else dictLookup rest k

/-- Model of `d[k] = v` on a Python dict: replace in place when present, else append. -/
def dictSet {α : Type} (l : List (String × α)) (k : String) (v : α) :
    List (String × α) :=
  match l with
  | [] => [(k, v)]
  | (k1, v1) :: rest =>
    if k1 = k then (k1, v) :: rest else (k1, v1) :: dictSet rest k v

/-- Model of `del d[k]` on a Python dict (keys are unique, so removing every
occurrence of `k` coincides with deleting its single binding). -/
def dictErase {α : Type} (l : List (String × α)) (k : String) :
    List (String × α) :=
  match l with
  | [] => []
  | (k1, v1) :: rest =>
    if k1 = k then dictErase rest k else (k1, v1) :: dictErase rest k

/-- A per-thread record of the in-process cache, the value dict stored in
`LocalCache.cache_data` under a thread id (field names as in the source). -/
structure CacheEntry where
  user_id : String
  conversation_history : List Msg
  last_conversation_time : String
  start_conversation_time : String
deriving DecidableEq

/-- The in-process cache state: the `LocalCache.cache_data` dict. -/
abbrev CacheData := List (String × CacheEntry)

namespace LocalCache

/-- Model of `LocalCache.is_thread`: `thread_id in self.cache_data`. -/
def is_thread (σ : CacheData) (thread_id : String) : Bool :=
  (dictLookup σ thread_id).isSome

/-- Model of `LocalCache.get_messages`: `.get(thread_id, {}).get("conversation_history", [])`. -/
def get_messages (σ : CacheData) (thread_id : String) : List Msg :=
  match dictLookup σ thread_id with
  | some e => e.conversation_history
  | none => []

/-- Model of `LocalCache.get_thread_info`: `.get(thread_id, {})`; `none` models the
empty dict returned for a missing thread. -/
def get_thread_info (σ : CacheData) (thread_id : String) : Option CacheEntry :=
  dictLookup σ thread_id

/-- Model of `LocalCache.create_conversation_thread`.  The `user_id` parameter may be
Python `None` (when forwarded from an update), and `user_id or ""` collapses
both `None` and `""` to `""`.  Both timestamps are `datetime.now()` renderings,
modelled with the ambient clock `now`. -/
def create_conversation_thread (σ : CacheData) (thread_id : String)
    (user_id : Option String) (now : Nat) : CacheData × Bool :=
  if is_thread σ thread_id then (σ, false)
  else
    (dictSet σ thread_id
      { user_id := user_id.getD ""
        conversation_history := []
        last_conversation_time := fmtEpoch now
        start_conversation_time := fmtEpoch now }, true)

/-- Model of `LocalCache.update_conversation_thread`.  Creates the thread first when
missing; `user_id` overwrites the owner unless it is Python `None`
(`user_id if user_id is not None else ...`); new messages are appended;
`existing_start or start_conversation_time` keeps a non-empty existing start
time; the last-conversation time is always overwritten. -/
def update_conversation_thread (σ : CacheData) (thread_id : String)
    (user_id : Option String) (conversation_history : List Msg)
    (start_conversation_time last_conversation_time : String) (now : Nat) :
    CacheData × Bool :=
  let σ1 :=
    if is_thread σ thread_id then σ
    else (create_conversation_thread σ thread_id user_id now).1
  match dictLookup σ1 thread_id with
  | none => (σ1, false)
  | some old =>
    let existing_start :=
      match dictLookup σ1 thread_id with
      | some e => e.start_conversation_time
      | none => start_conversation_time
    (dictSet σ1 thread_id
      { user_id := user_id.getD old.user_id
        conversation_history := old.conversation_history ++ conversation_history
        start_conversation_time :=
          if existing_start = "" then start_conversation_time else existing_start
        last_conversation_time := last_conversation_time }, true)

/-- Model of `LocalCache.response_feedback`: attaches the score to the last message of
the history in place; `False` when the thread is missing or its history is
empty. -/
def response_feedback (σ : CacheData) (thread_id : String) (score : ℚ) :
    CacheData × Bool :=
  match dictLookup σ thread_id with
  | none => (σ, false)
  | some e =>
    match e.conversation_history.getLast? with
    | none => (σ, false)
    | some last =>
      (dictSet σ thread_id
        { e with conversation_history :=
            e.conversation_history.dropLast ++ [{ last with feedback := some score }] },
       true)

/-- Model of `LocalCache.delete_conversation_thread`: `del` plus a boolean report of
prior existence. -/
def delete_conversation_thread (σ : CacheData) (thread_id : String) :
    CacheData × Bool :=
  if is_thread σ thread_id then (dictErase σ thread_id, true) else (σ, false)

/-- Model of `LocalCache.update_thread_messages`: returns `False` when the thread is
missing, and otherwise falls off the end of the function (Python `None`,
modelled as `Option.none`) without touching the store. -/
def update_thread_messages (σ : CacheData) (thread_id : String)
    (messages : List Msg) : CacheData × Option Bool :=
  if is_thread σ thread_id then (σ, none) else (σ, some false)

end LocalCache

/-- A loosely typed Python timestamp argument: a string, a float epoch (whole
seconds), a `datetime` object (as psycopg returns for TIMESTAMP columns,
carrying its textual rendering), or `None`. -/
inductive PyTime where
  | str (s : String)
  | num (t : Nat)
  | dt (s : String)
  | none
deriving DecidableEq

/-- A Python exception escaping the modelled code. -/
inductive PyErr where
  | valueError
  | typeError
  | keyError
deriving DecidableEq

/-- A Redis value: a plain string key or a list key holding serialized
messages (the `json.dumps`/`json.loads` round trip is a bijection and is
modelled away, so list keys hold `Msg` values directly). -/
inductive RVal where
  | str (s : String)
  | list (l : List Msg)
deriving DecidableEq

/-- The external cache state: a flat key space with keys of the form
`"<thread_id>:<field>"`. -/
abbrev RedisStore := List (String × RVal)

namespace RedisClient

/-- Model of `redis.get` on a string key. -/
def rget (ρ : RedisStore) (k : String) : Option String :=
  match dictLookup ρ k with
  | some (.str s) => some s
  | _ => none

/-- Model of `redis.set` on a string key (expiry not modelled). -/
def rset (ρ : RedisStore) (k : String) (v : String) : RedisStore :=
  dictSet ρ k (.str v)

/-- Model of `redis.lrange(k, 0, -1)`: the whole list, `[]` when the key is absent. -/
def lrange (ρ : RedisStore) (k : String) : List Msg :=
  match dictLookup ρ k with
  | some (.list l) => l
  | _ => []

/-- Model of `redis.rpush` with a non-empty argument list: append, creating the key. -/
def rpush (ρ : RedisStore) (k : String) (msgs : List Msg) : RedisStore :=
  dictSet ρ k (.list (lrange ρ k ++ msgs))

/-- Model of `RedisClient.is_thread`: `exists(f"{thread_id}:start_conversation_time")`. -/
def is_thread (ρ : RedisStore) (thread_id : String) : Bool :=
  (dictLookup ρ (thread_id ++ ":start_conversation_time")).isSome

/-- Model of `RedisClient.create_conversation_thread` always fails: its transactional
pipeline contains `rpush(f"{thread_id}:conversation_history", *[])`, i.e. an
`RPUSH` with no values, which the server rejects while queuing the MULTI
transaction; `pipeline.execute()` then raises, the transaction is discarded
with no keys written, and the `except` clause returns `False`. -/
def create_conversation_thread (ρ : RedisStore) (_thread_id _user_id : String) :
    RedisStore × Bool :=
  (ρ, false)

/-- Python `x or y` on an optional float: `None` and `0.0` are falsy. -/
def pyOrNat (x : Option Nat) (y : Nat) : Nat :=
  match x with
  | some t => if t = 0 then y else t
  | none => y

/-- Model of `datetime.fromisoformat(e).strftime("%Y-%m-%d %H:%M:%S.%f")` for
strings accepted by `pyFromIsoformatOk`: the date digits are kept, a missing
time part reads as midnight, and the fractional digits are right-padded with
zeros to microsecond width.  On strings the parser rejects this function is
never applied (its caller raises `ValueError` first), and it returns the
input unchanged. -/
def isoRoundTrip (s : String) : String :=
  match s.data with
  | y1 :: y2 :: y3 :: y4 :: '-' :: o1 :: o2 :: '-' :: d1 :: d2 :: rest =>
    let date := [y1, y2, y3, y4, '-', o1, o2, '-', d1, d2]
    match rest with
    | [] =>
      String.mk (date ++ [' ', '0', '0', ':', '0', '0', ':', '0', '0', '.'] ++
        List.replicate 6 '0')
    | _ :: t =>
      match t with
      | h1 :: h2 :: ':' :: m1 :: m2 :: ':' :: s1 :: s2 :: tr =>
        let frac :=
          match tr with
          | '.' :: f => f ++ List.replicate (6 - f.length) '0'
          | _ => List.replicate 6 '0'
        String.mk (date ++ [' ', h1, h2, ':', m1, m2, ':', s1, s2, '.'] ++ frac)
      | _ => s
  | _ => s

/-- Model of the argument of the first `set` in
`RedisClient.update_conversation_thread`.  Despite the source comment "Store
start conversation time only if it doesn't exist", a supplied
`start_conversation_time` always overwrites the stored one.  When no start
time is supplied and a non-empty one is stored, `datetime.fromisoformat` is
re-applied to the stored string: if it is unparsable the resulting
`ValueError` is not caught (only `redis.RedisError` is) and propagates
before any key is written. -/
def startTimeValue (existing_start : Option String)
    (start_conversation_time : Option Nat) (now : Nat) : Except PyErr String :=
  match start_conversation_time with
  | some t => .ok (fmtEpoch t)
  | none =>
    match existing_start with
    | some e =>
      if e = "" then .ok (fmtEpoch now)
      else if pyFromIsoformatOk e then .ok (isoRoundTrip e)
      else .error .valueError
    | none => .ok (fmtEpoch now)

/-- Model of the rest of `RedisClient.update_conversation_thread`: implicit
creation, the start-time `set` receiving `startTimeValue` (raising when that
raises, before any write), the last-time and user-id `set` calls, and the
history `rpush` (which, on an empty history, has no values, is rejected by
the server as a `RedisError`, and makes the method return `False` with the
three `set` calls already applied). -/
def update_conversation_thread (ρ : RedisStore) (thread_id user_id : String)
    (conversation_history : List Msg)
    (start_conversation_time last_conversation_time : Option Nat) (now : Nat) :
    Except PyErr (RedisStore × Bool) :=
  let ρ1 :=
    if is_thread ρ thread_id then ρ
    else (create_conversation_thread ρ thread_id user_id).1
  let startKey := thread_id ++ ":start_conversation_time"
  match startTimeValue (rget ρ1 startKey) start_conversation_time now with
  | .error err => .error err
  | .ok startVal =>
    let ρ2 := rset ρ1 startKey startVal
    let ρ3 := rset ρ2 (thread_id ++ ":last_conversation_time")
      (fmtEpoch (pyOrNat last_conversation_time now))
    let ρ4 := rset ρ3 (thread_id ++ ":user_id") user_id
    match conversation_history with
    | [] => .ok (ρ4, false)
    | _ =>
      .ok (rpush ρ4 (thread_id ++ ":conversation_history") conversation_history,
        true)

/-- Model of `RedisClient.response_feedback`: read the last list entry, attach the
score, write it back with `lset`; `False` when the history key is absent or
empty (or holds a non-list value, a `RedisError` caught by the handler). -/
def response_feedback (ρ : RedisStore) (thread_id : String) (score : ℚ) :
    RedisStore × Bool :=
  let convKey := thread_id ++ ":conversation_history"
  match dictLookup ρ convKey with
  | some (.list l) =>
    match l.getLast? with
    | none => (ρ, false)
    | some last =>
      (dictSet ρ convKey (.list (l.dropLast ++ [{ last with feedback := some score }])),
       true)
  | some (.str _) => (ρ, false)
  | none => (ρ, false)

/-- Model of `RedisClient.delete_conversation_thread`: deletes whichever of the four
per-thread keys exist, then reports `True` unconditionally. -/
def delete_conversation_thread (ρ : RedisStore) (thread_id : String) :
    RedisStore × Bool :=
  (dictErase (dictErase (dictErase (dictErase ρ
      (thread_id ++ ":conversation_history"))
      (thread_id ++ ":user_id"))
      (thread_id ++ ":last_conversation_time"))
      (thread_id ++ ":start_conversation_time"),
   true)

end RedisClient

/-- The timestamp validation shared verbatim by `Datastore.save_update_thread`
and `CacheManager.update_conversation_thread`: a `str` is checked with
`datetime.fromisoformat` and kept unchanged (`ValueError` on failure, re-raised
as the validation message); any other value `v` is replaced by
`datetime.fromtimestamp(v or time.time()).strftime("%Y-%m-%d %H:%M:%S.%f")` —
a non-zero float epoch is formatted, `None` and `0.0` (falsy) format the
current time, and a truthy `datetime` object makes `fromtimestamp` raise
`TypeError`. -/
def normalizeTime (now : Nat) : PyTime → Except PyErr String
  | .str s => if pyFromIsoformatOk s then .ok s else .error .valueError
  | .num t => .ok (fmtEpoch (if t = 0 then now else t))
  | .dt _ => .error .typeError
  | .none => .ok (fmtEpoch now)

/-- A row of the `conversation_history` table (field names as in the schema);
`user_id` is `none` when the write supplied a falsy user id (stored as SQL
NULL). -/
structure PgRow where
  user_id : Option String
  last_conversation_time : String
  start_conversation_time : String
  conversation_data : List Msg
deriving DecidableEq

/-- The durable store state, keyed by the `thread_id` primary key. -/
abbrev PgDB := List (String × PgRow)

namespace PostgresClient

/-- Model of `PostgresClient.is_thread`: the SQL EXISTS check. -/
def is_thread (db : PgDB) (thread_id : String) : Bool :=
  (dictLookup db thread_id).isSome

/-- Model of `PostgresClient.save_update_thread`: the `INSERT ... ON CONFLICT
(thread_id) DO UPDATE` upsert.  On conflict, `user_id` and
`last_conversation_time` take the excluded (new) values,
`conversation_data` becomes the JSONB concatenation of the old and new
arrays, and `start_conversation_time` is not in the update list, so it keeps
its stored value.  The inserted `user_id` is `user_id if user_id else None`.
The method has no `return` statement: it returns Python `None` (second
component `Option.none`) even on success. -/
def save_update_thread (db : PgDB) (thread_id user_id : String)
    (conversation_history : List Msg)
    (start_conversation_time last_conversation_time : String) :
    PgDB × Option Bool :=
  let newUser : Option String := if user_id = "" then none else some user_id
  match dictLookup db thread_id with
  | none =>
    (dictSet db thread_id
      { user_id := newUser
        start_conversation_time := start_conversation_time
        last_conversation_time := last_conversation_time
        conversation_data := conversation_history }, none)
  | some r =>
    (dictSet db thread_id
      { user_id := newUser
        start_conversation_time := r.start_conversation_time
        last_conversation_time := last_conversation_time
        conversation_data := r.conversation_data ++ conversation_history }, none)

/-- Model of `PostgresClient.get_thread_info`: the row, or `None` when absent. -/
def get_thread_info (db : PgDB) (thread_id : String) : Option PgRow :=
  dictLookup db thread_id

end PostgresClient

namespace Datastore

/-- Model of `Datastore.save_update_thread`: validate/normalize both timestamps, then
delegate to the Postgres client, propagating its (`None`) return value. -/
def save_update_thread (db : PgDB) (thread_id user_id : String)
    (conversation_history : List Msg)
    (start_conversation_time last_conversation_time : PyTime) (now : Nat) :
    Except PyErr (PgDB × Option Bool) := do
  let s ← normalizeTime now start_conversation_time
  let l ← normalizeTime now last_conversation_time
  .ok (PostgresClient.save_update_thread db thread_id user_id
        conversation_history s l)

end Datastore

namespace CacheManager

/-- Model of `CacheManager.update_conversation_thread` over the in-process backend:
validate/normalize both timestamps, then delegate to `LocalCache`. -/
def update_conversation_thread (σ : CacheData) (thread_id : String)
    (user_id : Option String) (conversation_history : List Msg)
    (start_conversation_time last_conversation_time : PyTime) (now : Nat) :
    Except PyErr (CacheData × Bool) := do
  let s ← normalizeTime now start_conversation_time
  let l ← normalizeTime now last_conversation_time
  .ok (LocalCache.update_conversation_thread σ thread_id user_id
        conversation_history s l now)

end CacheManager

/-- The two-tier state seen by the request handlers, with the default
in-process cache backend (`CACHE_NAME=inmemory`). -/
structure SysState where
  cache : CacheData
  db : PgDB
deriving DecidableEq

/-- Outcome of the `/create_thread` handler. -/
inductive CreateOutcome where
  | ok (thread_id : String)
  | unableToSave
  | unableToGenerate
  | pyExc (e : PyErr)
deriving DecidableEq

/-- Outcome of the `/get_thread_info` handler. -/
inductive GetOutcome where
  | ok (user_id : String) (conversation_history : List Msg)
  | notFound
  | invalidInfo
  | pyExc (e : PyErr)
deriving DecidableEq

namespace Server

/-- The `/create_thread` handler.  Iterates over at most five freshly drawn
identifiers (the `ids` list models the successive `uuid4()` draws of
`for _ in range(5)`); an id present in either tier is a collision and the
loop continues; otherwise the thread is created in the cache, saved to the
datastore, and — because `PostgresClient.save_update_thread` returns `None` —
the truth test on the save result decides between returning the id and
raising "Unable to save thread_id". -/
def create_thread (st : SysState) (user_id : String) (now : Nat) :
    List String → CreateOutcome × SysState
  | [] => (.unableToGenerate, st)
  | thread_id :: rest =>
    if LocalCache.is_thread st.cache thread_id then
      create_thread st user_id now rest
    else if PostgresClient.is_thread st.db thread_id then
      create_thread st user_id now rest
    else
      let c := LocalCache.create_conversation_thread st.cache thread_id
        (some user_id) now
      if c.2 then
        match LocalCache.get_thread_info c.1 thread_id with
        | Option.none => (.pyExc .typeError, { st with cache := c.1 })
        | some info =>
          match Datastore.save_update_thread st.db thread_id info.user_id
              info.conversation_history (.str info.start_conversation_time)
              (.str info.last_conversation_time) now with
          | .error e => (.pyExc e, { st with cache := c.1 })
          | .ok (db2, r) =>
            if r.getD false then (.ok thread_id, ⟨c.1, db2⟩)
            else (.unableToSave, ⟨c.1, db2⟩)
      else create_thread { st with cache := c.1 } user_id now rest

/-- The response construction at the end of `/get_thread_info`:
`thread_info["user_id"]` / `thread_info["conversation_history"]` on the
cache record (a `KeyError` on the empty dict). -/
def thread_response (st : SysState) (thread_id : String) :
    GetOutcome × SysState :=
  match LocalCache.get_thread_info st.cache thread_id with
  | some e => (.ok e.user_id e.conversation_history, st)
  | Option.none => (.pyExc .keyError, st)

/-- The `/get_thread_info` handler: cache hit answers directly; a miss
consults the durable store, 404s when absent there too, and otherwise
backfills the cache via `CacheManager.update_conversation_thread` with the
row's values — whose timestamps psycopg returns as `datetime` objects —
before answering from the cache. -/
def get_thread_info (st : SysState) (thread_id : String) (now : Nat) :
    GetOutcome × SysState :=
  if LocalCache.is_thread st.cache thread_id then
    thread_response st thread_id
  else if PostgresClient.is_thread st.db thread_id then
    match PostgresClient.get_thread_info st.db thread_id with
    | Option.none => (.invalidInfo, st)
    | some row =>
      match CacheManager.update_conversation_thread st.cache thread_id
          row.user_id row.conversation_data
          (.dt row.start_conversation_time) (.dt row.last_conversation_time)
          now with
      | .error e => (.pyExc e, st)
      | .ok (cache2, _) => thread_response { st with cache := cache2 } thread_id
  else (.notFound, st)

end Server

/-- A process hosting the `LocalCache` class object and its instances.
`classData` is the class attribute `LocalCache.cache_data`; each instance
carries its `__dict__` slot for `cache_data`, which shadows the class
attribute when set — the source never assigns `self.cache_data = ...`, so in
every reachable process state the slots are all `none`. -/
structure LocalCacheProcess where
  classData : CacheData
  instances : List (Option CacheData)
deriving DecidableEq

namespace LocalCacheProcess

/-- Python attribute lookup `self.cache_data` on instance `i`. -/
def attrCacheData (p : LocalCacheProcess) (i : Nat) : CacheData :=
  match p.instances.getD i Option.none with
  | some d => d
  | Option.none => p.classData

/-- Item assignment/mutation through `self.cache_data` mutates the looked-up
dict object: the instance-level dict when one exists, else the shared class
dict. -/
def writeCacheData (p : LocalCacheProcess) (i : Nat) (σ : CacheData) :
    LocalCacheProcess :=
  match p.instances.getD i Option.none with
  | some _ => { p with instances := p.instances.set i (some σ) }
  | Option.none => { p with classData := σ }

/-- Model of `create_conversation_thread` invoked on instance `i`. -/
def createVia (p : LocalCacheProcess) (i : Nat) (thread_id : String)
    (user_id : Option String) (now : Nat) : LocalCacheProcess × Bool :=
  let r := LocalCache.create_conversation_thread (attrCacheData p i)
    thread_id user_id now
  (writeCacheData p i r.1, r.2)

/-- Model of `delete_conversation_thread` invoked on instance `i`. -/
def deleteVia (p : LocalCacheProcess) (i : Nat) (thread_id : String) :
    LocalCacheProcess × Bool :=
  let r := LocalCache.delete_conversation_thread (attrCacheData p i) thread_id
  (writeCacheData p i r.1, r.2)

/-- Model of `is_thread` invoked on instance `i`. -/
def isThreadVia (p : LocalCacheProcess) (i : Nat) (thread_id : String) : Bool :=
  LocalCache.is_thread (attrCacheData p i) thread_id

/-- Model of `get_thread_info` invoked on instance `i`. -/
def getThreadInfoVia (p : LocalCacheProcess) (i : Nat) (thread_id : String) :
    Option CacheEntry :=
  LocalCache.get_thread_info (attrCacheData p i) thread_id

/-- Model of `get_messages` invoked on instance `i`. -/
def getMessagesVia (p : LocalCacheProcess) (i : Nat) (thread_id : String) :
    List Msg :=
  LocalCache.get_messages (attrCacheData p i) thread_id

end LocalCacheProcess

theorem dictLookup_dictSet_self {α : Type} (l : List (String × α)) (k : String)
    (v : α) : dictLookup (dictSet l k v) k = some v := by
  induction l with
  | nil => simp [dictSet, dictLookup]
  | cons hd tl ih =>
    obtain ⟨k1, v1⟩ := hd
    by_cases h : k1 = k <;> simp [dictSet, dictLookup, h, ih]

theorem dictLookup_dictSet_ne {α : Type} (l : List (String × α)) (k k1 : String)
    (v : α) (h : k1 ≠ k) : dictLookup (dictSet l k v) k1 = dictLookup l k1 := by
  induction l with
  | nil => simp [dictSet, dictLookup, Ne.symm h]
  | cons hd tl ih =>
    obtain ⟨k2, v2⟩ := hd
    by_cases h2 : k2 = k
    · subst h2
      simp [dictSet, dictLookup, Ne.symm h]
    · simp [dictSet, dictLookup, h2, ih]

theorem dictLookup_dictErase_self {α : Type} (l : List (String × α))
    (k : String) : dictLookup (dictErase l k) k = Option.none := by
  induction l with
  | nil => simp [dictErase, dictLookup]
  | cons hd tl ih =>
    obtain ⟨k1, v1⟩ := hd
    by_cases h : k1 = k <;> simp [dictErase, dictLookup, h, ih]

theorem dictLookup_dictErase_ne {α : Type} (l : List (String × α))
    (k k1 : String) (h : k1 ≠ k) :
    dictLookup (dictErase l k) k1 = dictLookup l k1 := by
  induction l with
  | nil => simp [dictErase, dictLookup]
  | cons hd tl ih =>
    obtain ⟨k2, v2⟩ := hd
    by_cases h2 : k2 = k
    · subst h2
      simp [dictErase, dictLookup, Ne.symm h, ih]
    · simp [dictErase, dictLookup, h2, ih]

theorem stringAppend_ne_of_ne (s : String) {a b : String} (h : a ≠ b) :
    s ++ a ≠ s ++ b := by
  intro he
  apply h
  have hd : s.data ++ a.data = s.data ++ b.data := congrArg String.data he
  have hab : a.data = b.data := List.append_cancel_left hd
  cases a
  cases b
  exact congrArg String.mk hab

/-- C10: `LocalCache.update_thread_messages` never modifies the store; it
returns `False` exactly when the thread does not exist, and for an existing
thread it returns Python `None` without appending the supplied messages. -/
theorem C10_update_thread_messages_never_appends (σ : CacheData)
    (thread_id : String) (messages : List Msg) :
    (LocalCache.update_thread_messages σ thread_id messages).1 = σ ∧
    ((LocalCache.update_thread_messages σ thread_id messages).2 = some false ↔
      LocalCache.is_thread σ thread_id = false) ∧
    ((LocalCache.update_thread_messages σ thread_id messages).2 = Option.none ↔
      LocalCache.is_thread σ thread_id = true) := by
  unfold LocalCache.update_thread_messages
  by_cases h : LocalCache.is_thread σ thread_id = true <;> simp_all

/-- C9: all `LocalCache` instances share the class-level `cache_data`
mapping: since no instance ever sets an instance-level `cache_data`, a thread
created through instance `i` is immediately visible through any instance `j`
(via `is_thread`, `get_thread_info`, `get_messages`), and deleting it through
`i` makes it invisible through `j`. -/
theorem C9_instances_share_class_dict (p : LocalCacheProcess) (i j : Nat)
    (thread_id user_id : String) (now : Nat)
    (hi : p.instances.getD i Option.none = Option.none)
    (hj : p.instances.getD j Option.none = Option.none)
    (hfresh : LocalCache.is_thread p.classData thread_id = false) :
    (LocalCacheProcess.createVia p i thread_id (some user_id) now).2 = true ∧
    LocalCacheProcess.isThreadVia
      (LocalCacheProcess.createVia p i thread_id (some user_id) now).1 j
      thread_id = true ∧
    LocalCacheProcess.getThreadInfoVia
      (LocalCacheProcess.createVia p i thread_id (some user_id) now).1 j
      thread_id =
      some { user_id := user_id
             conversation_history := []
             last_conversation_time := fmtEpoch now
             start_conversation_time := fmtEpoch now } ∧
    LocalCacheProcess.getMessagesVia
      (LocalCacheProcess.createVia p i thread_id (some user_id) now).1 j
      thread_id = [] ∧
    LocalCacheProcess.isThreadVia
      (LocalCacheProcess.deleteVia
        (LocalCacheProcess.createVia p i thread_id (some user_id) now).1 i
        thread_id).1 j thread_id = false := by
  simp only [LocalCacheProcess.createVia, LocalCacheProcess.deleteVia,
    LocalCacheProcess.isThreadVia, LocalCacheProcess.getThreadInfoVia,
    LocalCacheProcess.getMessagesVia, LocalCacheProcess.attrCacheData,
    LocalCacheProcess.writeCacheData, hi, hj,
    LocalCache.create_conversation_thread, LocalCache.is_thread,
    LocalCache.delete_conversation_thread, LocalCache.get_thread_info,
    LocalCache.get_messages, hfresh]
  simp [LocalCache.is_thread] at hfresh
  simp [hfresh, hi, hj, dictLookup_dictSet_self, dictLookup_dictErase_self,
    Option.getD]

/-- C6 counterexample: on an empty external cache, nothing exists for id
`"t"`, yet `delete_conversation_thread` reports `true`, so the Fast Store
delete does not return true exactly when state existed. -/
theorem C6_counterexample :
    RedisClient.is_thread [] "t" = false ∧
    (RedisClient.delete_conversation_thread [] "t").2 = true := by decide

/-- C6 amended: the in-process delete returns true exactly when state for the
id existed (and removes it); the external-cache delete removes all four
per-thread keys but returns true regardless of prior existence. -/
theorem C6_delete_thread_amended :
    (∀ (σ : CacheData) (thread_id : String),
      (LocalCache.delete_conversation_thread σ thread_id).2 =
        LocalCache.is_thread σ thread_id) ∧
    (∀ (σ : CacheData) (thread_id : String),
      dictLookup (LocalCache.delete_conversation_thread σ thread_id).1
        thread_id = Option.none) ∧
    (∀ (σ : CacheData) (thread_id k : String), k ≠ thread_id →
      dictLookup (LocalCache.delete_conversation_thread σ thread_id).1 k =
        dictLookup σ k) ∧
    (∀ (ρ : RedisStore) (thread_id : String),
      (RedisClient.delete_conversation_thread ρ thread_id).2 = true ∧
      dictLookup (RedisClient.delete_conversation_thread ρ thread_id).1
        (thread_id ++ ":conversation_history") = Option.none ∧
      dictLookup (RedisClient.delete_conversation_thread ρ thread_id).1
        (thread_id ++ ":user_id") = Option.none ∧
      dictLookup (RedisClient.delete_conversation_thread ρ thread_id).1
        (thread_id ++ ":last_conversation_time") = Option.none ∧
      dictLookup (RedisClient.delete_conversation_thread ρ thread_id).1
        (thread_id ++ ":start_conversation_time") = Option.none) := by
  refine ⟨?_, ?_, ?_, ?_⟩
  · intro σ thread_id
    unfold LocalCache.delete_conversation_thread
    split <;> simp_all
  · intro σ thread_id
    unfold LocalCache.delete_conversation_thread
    split
    · simp [dictLookup_dictErase_self]
    · rename_i h
      simp only [LocalCache.is_thread] at h
      cases hx : dictLookup σ thread_id with
      | none => rfl
      | some v => simp [hx] at h
  · intro σ thread_id k hk
    unfold LocalCache.delete_conversation_thread
    split
    · simp [dictLookup_dictErase_ne _ _ _ hk]
    · rfl
  · intro ρ thread_id
    unfold RedisClient.delete_conversation_thread
    refine ⟨rfl, ?_, ?_, ?_, ?_⟩
    · rw [dictLookup_dictErase_ne _ _ _ (stringAppend_ne_of_ne _ (by decide)),
        dictLookup_dictErase_ne _ _ _ (stringAppend_ne_of_ne _ (by decide)),
        dictLookup_dictErase_ne _ _ _ (stringAppend_ne_of_ne _ (by decide)),
        dictLookup_dictErase_self]
    · rw [dictLookup_dictErase_ne _ _ _ (stringAppend_ne_of_ne _ (by decide)),
        dictLookup_dictErase_ne _ _ _ (stringAppend_ne_of_ne _ (by decide)),
        dictLookup_dictErase_self]
    · rw [dictLookup_dictErase_ne _ _ _ (stringAppend_ne_of_ne _ (by decide)),
        dictLookup_dictErase_self]
    · rw [dictLookup_dictErase_self]

/-- C6 witness: the amended delete contract applied to a one-thread local
store and a populated external store. -/
theorem C6_delete_thread_amended_witness :
    ("x" : String) ≠ "t" ∧
    dictLookup
      (LocalCache.delete_conversation_thread
        [("t", { user_id := "a", conversation_history := [],
                 last_conversation_time := "L", start_conversation_time := "S" })]
        "t").1 "x" =
      dictLookup
        [("t", { user_id := "a", conversation_history := [],
                 last_conversation_time := "L",
                 start_conversation_time := "S" : CacheEntry })] "x" :=
  ⟨by decide,
    C6_delete_thread_amended.2.2.1
      [("t", { user_id := "a", conversation_history := [],
               last_conversation_time := "L", start_conversation_time := "S" })]
      "t" "x" (by decide)⟩

/-- C5 counterexample: with a stored owner `"alice"`, an update supplying the
empty user id overwrites the owner with `""` in the in-process cache, and the
external cache stores the empty user id too — the empty user id does not
preserve the previous owner. -/
theorem C5_counterexample :
    (dictLookup (LocalCache.update_conversation_thread
        [("t", { user_id := "alice", conversation_history := [],
                 last_conversation_time := "L", start_conversation_time := "S" })]
        "t" (some "") [] "S" "L" 0).1 "t").map CacheEntry.user_id = some "" ∧
    (RedisClient.update_conversation_thread
        [("t:start_conversation_time", RVal.str (fmtEpoch 5))] "t" "" []
        (some 7) (some 7) 9).toOption.map
      (fun r => RedisClient.rget r.1 "t:user_id") = some (some "") := by decide

/-- C5 amended: a supplied user id — empty or not — always overwrites the
stored owner; only a Python `None` user id preserves it, and only in the
in-process implementation.  The external cache stores the supplied value on
every call that completes (when no start time is supplied and the stored
start time is unparsable, the call instead raises `ValueError` before
writing anything). -/
theorem C5_user_id_amended :
    (∀ (σ : CacheData) (thread_id : String) (e : CacheEntry) (u : String)
        (hist : List Msg) (s l : String) (now : Nat),
      dictLookup σ thread_id = some e →
      (dictLookup (LocalCache.update_conversation_thread σ thread_id (some u)
          hist s l now).1 thread_id).map CacheEntry.user_id = some u) ∧
    (∀ (σ : CacheData) (thread_id : String) (e : CacheEntry)
        (hist : List Msg) (s l : String) (now : Nat),
      dictLookup σ thread_id = some e →
      (dictLookup (LocalCache.update_conversation_thread σ thread_id Option.none
          hist s l now).1 thread_id).map CacheEntry.user_id = some e.user_id) ∧
    (∀ (ρ : RedisStore) (thread_id u : String) (hist : List Msg)
        (sT lT : Option Nat) (now : Nat) (r : RedisStore × Bool),
      RedisClient.update_conversation_thread ρ thread_id u hist sT lT now =
        Except.ok r →
      RedisClient.rget r.1 (thread_id ++ ":user_id") = some u) := by
  refine ⟨?_, ?_, ?_⟩
  · intro σ thread_id e u hist s l now h
    unfold LocalCache.update_conversation_thread
    simp [LocalCache.is_thread, h, dictLookup_dictSet_self]
  · intro σ thread_id e hist s l now h
    unfold LocalCache.update_conversation_thread
    simp [LocalCache.is_thread, h, dictLookup_dictSet_self]
  · intro ρ thread_id u hist sT lT now r h
    unfold RedisClient.update_conversation_thread at h
    simp only [RedisClient.create_conversation_thread, ite_self] at h
    cases hsv : RedisClient.startTimeValue
        (RedisClient.rget ρ (thread_id ++ ":start_conversation_time")) sT now with
    | error e =>
      rw [hsv] at h
      exact Except.noConfusion h
    | ok sv =>
      rw [hsv] at h
      cases hist with
      | nil =>
        simp only [Except.ok.injEq] at h
        subst h
        simp [RedisClient.rget, RedisClient.rset, dictLookup_dictSet_self]
      | cons m ms =>
        simp only [Except.ok.injEq] at h
        subst h
        simp only [RedisClient.rget, RedisClient.rset, RedisClient.rpush]
        rw [dictLookup_dictSet_ne _ _ _ _ (stringAppend_ne_of_ne _ (by decide)),
          dictLookup_dictSet_self]

/-- C7: `response_feedback` attaches the score to the chronologically last
message only (the rest of the history and the rest of the store are left as
they were), a second call with a different score leaves only the second
score, and the call returns false when the thread does not exist or its
history is empty — in both the in-process and the external-cache
implementation. -/
theorem C7_response_feedback_last_message_only :
    (∀ (σ : CacheData) (thread_id : String) (e : CacheEntry) (m : Msg) (s1 : ℚ),
      dictLookup σ thread_id = some e →
      e.conversation_history.getLast? = some m →
      LocalCache.response_feedback σ thread_id s1 =
        (dictSet σ thread_id
          { e with conversation_history :=
              e.conversation_history.dropLast ++ [{ m with feedback := some s1 }] },
         true)) ∧
    (∀ (σ : CacheData) (thread_id : String) (e : CacheEntry) (m : Msg)
        (s1 s2 : ℚ),
      dictLookup σ thread_id = some e →
      e.conversation_history.getLast? = some m →
      (dictLookup (LocalCache.response_feedback
          (LocalCache.response_feedback σ thread_id s1).1 thread_id s2).1
        thread_id).map CacheEntry.conversation_history =
        some (e.conversation_history.dropLast ++ [{ m with feedback := some s2 }])) ∧
    (∀ (σ : CacheData) (thread_id : String) (s1 : ℚ),
      dictLookup σ thread_id = Option.none →
      LocalCache.response_feedback σ thread_id s1 = (σ, false)) ∧
    (∀ (σ : CacheData) (thread_id : String) (e : CacheEntry) (s1 : ℚ),
      dictLookup σ thread_id = some e →
      e.conversation_history = [] →
      LocalCache.response_feedback σ thread_id s1 = (σ, false)) ∧
    (∀ (ρ : RedisStore) (thread_id : String) (l : List Msg) (m : Msg)
        (s1 s2 : ℚ),
      dictLookup ρ (thread_id ++ ":conversation_history") = some (RVal.list l) →
      l.getLast? = some m →
      RedisClient.response_feedback ρ thread_id s1 =
        (dictSet ρ (thread_id ++ ":conversation_history")
          (RVal.list (l.dropLast ++ [{ m with feedback := some s1 }])), true) ∧
      RedisClient.lrange (RedisClient.response_feedback
          (RedisClient.response_feedback ρ thread_id s1).1 thread_id s2).1
        (thread_id ++ ":conversation_history") =
        l.dropLast ++ [{ m with feedback := some s2 }]) ∧
    (∀ (ρ : RedisStore) (thread_id : String) (s1 : ℚ),
      dictLookup ρ (thread_id ++ ":conversation_history") = Option.none →
      RedisClient.response_feedback ρ thread_id s1 = (ρ, false)) ∧
    (∀ (ρ : RedisStore) (thread_id : String) (s1 : ℚ),
      dictLookup ρ (thread_id ++ ":conversation_history") =
        some (RVal.list []) →
      RedisClient.response_feedback ρ thread_id s1 = (ρ, false)) := by
  refine ⟨?_, ?_, ?_, ?_, ?_, ?_, ?_⟩
  · intro σ thread_id e m s1 h hm
    unfold LocalCache.response_feedback
    simp [h, hm]
  · intro σ thread_id e m s1 s2 h hm
    unfold LocalCache.response_feedback
    simp only [h, hm]
    rw [dictLookup_dictSet_self]
    simp only [List.getLast?_concat, List.dropLast_concat]
    rw [dictLookup_dictSet_self]
    simp
  · intro σ thread_id s1 h
    unfold LocalCache.response_feedback
    simp [h]
  · intro σ thread_id e s1 h hm
    unfold LocalCache.response_feedback
    simp [h, hm]
  · intro ρ thread_id l m s1 s2 h hm
    unfold RedisClient.response_feedback
    simp only [h, hm]
    refine ⟨by trivial, ?_⟩
    rw [dictLookup_dictSet_self]
    simp only [List.getLast?_concat, List.dropLast_concat]
    unfold RedisClient.lrange
    rw [dictLookup_dictSet_self]
  · intro ρ thread_id s1 h
    unfold RedisClient.response_feedback
    simp [h]
  · intro ρ thread_id s1 h
    unfold RedisClient.response_feedback
    simp [h]

/-- C7 witness: the feedback contract applied to a one-thread store with a
two-message history. -/
theorem C7_response_feedback_last_message_only_witness :
    dictLookup
      [("t", { user_id := "a",
               conversation_history :=
                 [{ role := "user", content := "q", timestamp := "1",
                    feedback := Option.none },
                  { role := "assistant", content := "r", timestamp := "2",
                    feedback := Option.none }],
               last_conversation_time := "L",
               start_conversation_time := "S" : CacheEntry })] "t" =
      some { user_id := "a",
             conversation_history :=
               [{ role := "user", content := "q", timestamp := "1",
                  feedback := Option.none },
                { role := "assistant", content := "r", timestamp := "2",
                  feedback := Option.none }],
             last_conversation_time := "L", start_conversation_time := "S" } ∧
    (dictLookup (LocalCache.response_feedback
        (LocalCache.response_feedback
          [("t", { user_id := "a",
                   conversation_history :=
                     [{ role := "user", content := "q", timestamp := "1",
                        feedback := Option.none },
                      { role := "assistant", content := "r", timestamp := "2",
                        feedback := Option.none }],
                   last_conversation_time := "L",
                   start_conversation_time := "S" })] "t" 1).1 "t" (-1)).1
      "t").map CacheEntry.conversation_history =
      some [{ role := "user", content := "q", timestamp := "1",
              feedback := Option.none },
            { role := "assistant", content := "r", timestamp := "2",
              feedback := some (-1) }] :=
  ⟨by decide,
    C7_response_feedback_last_message_only.2.1
      [("t", { user_id := "a",
               conversation_history :=
                 [{ role := "user", content := "q", timestamp := "1",
                    feedback := Option.none },
                  { role := "assistant", content := "r", timestamp := "2",
                    feedback := Option.none }],
               last_conversation_time := "L", start_conversation_time := "S" })]
      "t"
      { user_id := "a",
        conversation_history :=
          [{ role := "user", content := "q", timestamp := "1",
             feedback := Option.none },
           { role := "assistant", content := "r", timestamp := "2",
             feedback := Option.none }],
        last_conversation_time := "L", start_conversation_time := "S" }
      { role := "assistant", content := "r", timestamp := "2",
        feedback := Option.none }
      1 (-1) (by decide) (by decide)⟩

/-- C5 witness: the amended owner-overwrite contract applied to a concrete
store with a non-empty owner. -/
theorem C5_user_id_amended_witness :
    dictLookup
      [("t", { user_id := "alice", conversation_history := [],
               last_conversation_time := "L",
               start_conversation_time := "S" : CacheEntry })] "t" =
      some { user_id := "alice", conversation_history := [],
             last_conversation_time := "L", start_conversation_time := "S" } ∧
    (dictLookup (LocalCache.update_conversation_thread
        [("t", { user_id := "alice", conversation_history := [],
                 last_conversation_time := "L", start_conversation_time := "S" })]
        "t" (some "bob") [] "S" "L" 0).1 "t").map CacheEntry.user_id =
      some "bob" :=
  ⟨by decide,
    C5_user_id_amended.1
      [("t", { user_id := "alice", conversation_history := [],
               last_conversation_time := "L", start_conversation_time := "S" })]
      "t" { user_id := "alice", conversation_history := [],
            last_conversation_time := "L", start_conversation_time := "S" }
      "bob" [] "S" "L" 0 (by decide)⟩

/-- C2: the durable upsert merges on conflict: the stored owner and
`last_conversation_time` take the new values (an empty owner is stored as SQL
NULL), the history becomes old ++ new, `start_conversation_time` is left
unchanged, and no other row is touched. -/
theorem C2_save_update_thread_upsert_merges (db : PgDB)
    (thread_id user_id : String) (hist : List Msg) (s l : String) (r : PgRow)
    (h : dictLookup db thread_id = some r) :
    dictLookup (PostgresClient.save_update_thread db thread_id user_id hist
        s l).1 thread_id =
      some { user_id := if user_id = "" then Option.none else some user_id
             start_conversation_time := r.start_conversation_time
             last_conversation_time := l
             conversation_data := r.conversation_data ++ hist } ∧
    (∀ k, k ≠ thread_id →
      dictLookup (PostgresClient.save_update_thread db thread_id user_id hist
          s l).1 k = dictLookup db k) := by
  unfold PostgresClient.save_update_thread
  simp only [h]
  exact ⟨dictLookup_dictSet_self _ _ _,
    fun k hk => dictLookup_dictSet_ne _ _ _ _ hk⟩

/-- C2 witness: the upsert-merge theorem applied to a concrete one-row
database. -/
theorem C2_save_update_thread_upsert_merges_witness :
    dictLookup
      [("t", { user_id := some "alice",
               last_conversation_time := "L0", start_conversation_time := "S0",
               conversation_data :=
                 [{ role := "user", content := "q", timestamp := "1",
                    feedback := Option.none }] : PgRow })] "t" =
      some { user_id := some "alice",
             last_conversation_time := "L0", start_conversation_time := "S0",
             conversation_data :=
               [{ role := "user", content := "q", timestamp := "1",
                  feedback := Option.none }] } ∧
    dictLookup (PostgresClient.save_update_thread
        [("t", { user_id := some "alice",
                 last_conversation_time := "L0", start_conversation_time := "S0",
                 conversation_data :=
                   [{ role := "user", content := "q", timestamp := "1",
                      feedback := Option.none }] })]
        "t" "bob"
        [{ role := "assistant", content := "r", timestamp := "2",
           feedback := Option.none }] "S1" "L1").1 "t" =
      some { user_id := if ("bob" : String) = "" then Option.none else some "bob"
             start_conversation_time := "S0"
             last_conversation_time := "L1"
             conversation_data :=
               [{ role := "user", content := "q", timestamp := "1",
                  feedback := Option.none },
                { role := "assistant", content := "r", timestamp := "2",
                  feedback := Option.none }] } :=
  ⟨by decide,
    (C2_save_update_thread_upsert_merges
      [("t", { user_id := some "alice",
               last_conversation_time := "L0", start_conversation_time := "S0",
               conversation_data :=
                 [{ role := "user", content := "q", timestamp := "1",
                    feedback := Option.none }] })]
      "t" "bob"
      [{ role := "assistant", content := "r", timestamp := "2",
         feedback := Option.none }] "S1" "L1"
      { user_id := some "alice",
        last_conversation_time := "L0", start_conversation_time := "S0",
        conversation_data :=
          [{ role := "user", content := "q", timestamp := "1",
             feedback := Option.none }] }
      (by decide)).1⟩

/-- C3: the in-process Fast Store never overwrites a set (non-empty)
`start_conversation_time`, but the external-cache implementation does
overwrite it whenever a later call supplies a start time — contrary to the
claim and to the source's own comment "Store start conversation time only if
it doesn't exist": concretely, a thread whose stored start time is
`fmtEpoch 5` ends up with `fmtEpoch 1000` after an update supplying start
time 1000. -/
theorem C3_start_time_immutability (σ : CacheData) (thread_id : String)
    (e : CacheEntry) (uid : Option String) (hist : List Msg) (s l : String)
    (now : Nat) (h : dictLookup σ thread_id = some e)
    (hne : e.start_conversation_time ≠ "") :
    (dictLookup (LocalCache.update_conversation_thread σ thread_id uid hist
        s l now).1 thread_id).map CacheEntry.start_conversation_time =
      some e.start_conversation_time ∧
    (RedisClient.update_conversation_thread
        [("t:start_conversation_time", RVal.str (fmtEpoch 5)),
         ("t:last_conversation_time", RVal.str (fmtEpoch 5)),
         ("t:user_id", RVal.str "alice")] "t" "alice"
        [{ role := "user", content := "q", timestamp := "1",
           feedback := Option.none }]
        (some 1000) (some 1000) 9).toOption.map
      (fun r => RedisClient.rget r.1 "t:start_conversation_time") =
      some (some (fmtEpoch 1000)) ∧
    fmtEpoch 1000 ≠ fmtEpoch 5 := by
  refine ⟨?_, by decide, by decide⟩
  unfold LocalCache.update_conversation_thread
  simp [LocalCache.is_thread, h, dictLookup_dictSet_self, hne]

/-- C3 witness: start-time preservation applied to a concrete local store
with a set start time, alongside the concrete external-cache overwrite. -/
theorem C3_start_time_immutability_witness :
    dictLookup
      [("t", { user_id := "a", conversation_history := [],
               last_conversation_time := "L",
               start_conversation_time := "S" : CacheEntry })] "t" =
      some { user_id := "a", conversation_history := [],
             last_conversation_time := "L", start_conversation_time := "S" } ∧
    ("S" : String) ≠ "" ∧
    (dictLookup (LocalCache.update_conversation_thread
        [("t", { user_id := "a", conversation_history := [],
                 last_conversation_time := "L", start_conversation_time := "S" })]
        "t" (some "a") [] "DIFFERENT" "L2" 0).1 "t").map
      CacheEntry.start_conversation_time = some "S" :=
  ⟨by decide, by decide,
    (C3_start_time_immutability
      [("t", { user_id := "a", conversation_history := [],
               last_conversation_time := "L", start_conversation_time := "S" })]
      "t"
      { user_id := "a", conversation_history := [],
        last_conversation_time := "L", start_conversation_time := "S" }
      (some "a") [] "DIFFERENT" "L2" 0 (by decide) (by decide)).1⟩

/-- C4: on a Fast Store miss with a Durable Store hit, `/get_thread_info`
does not succeed: the durable row's timestamps come back as `datetime`
objects, the backfill's timestamp normalization applies
`datetime.fromtimestamp` to them and raises `TypeError`, the request fails,
and the Fast Store is left unpopulated (the state is unchanged). -/
theorem C4_backfill_raises_type_error (st : SysState) (thread_id : String)
    (now : Nat) (row : PgRow)
    (hmiss : LocalCache.is_thread st.cache thread_id = false)
    (hhit : dictLookup st.db thread_id = some row) :
    Server.get_thread_info st thread_id now = (.pyExc .typeError, st) := by
  unfold Server.get_thread_info
  simp [hmiss, PostgresClient.is_thread, PostgresClient.get_thread_info, hhit,
    CacheManager.update_conversation_thread, normalizeTime, Bind.bind,
    Except.bind]

/-- C4 witness: the failed backfill applied to a concrete state whose only
copy of the thread is the durable row. -/
theorem C4_backfill_raises_type_error_witness :
    LocalCache.is_thread ([] : CacheData) "t" = false ∧
    Server.get_thread_info
      ⟨[], [("t", { user_id := some "alice",
                    last_conversation_time := "L",
                    start_conversation_time := "S",
                    conversation_data := [] })]⟩ "t" 0 =
      (.pyExc .typeError,
        ⟨[], [("t", { user_id := some "alice",
                      last_conversation_time := "L",
                      start_conversation_time := "S",
                      conversation_data := [] })]⟩) :=
  ⟨by decide,
    C4_backfill_raises_type_error
      ⟨[], [("t", { user_id := some "alice",
                    last_conversation_time := "L",
                    start_conversation_time := "S",
                    conversation_data := [] })]⟩ "t" 0
      { user_id := some "alice", last_conversation_time := "L",
        start_conversation_time := "S", conversation_data := [] }
      (by decide) (by decide)⟩

/-- C1: with both tiers empty and a fresh identifier, `/create_thread`
writes the new empty thread to both tiers and then reports "Unable to save
thread_id" (HTTP 500) instead of returning the id, because
`PostgresClient.save_update_thread` falls off its end and returns `None`,
which the handler's truth test treats as failure. -/
theorem C1_create_thread_reports_save_failure :
    (Server.create_thread ⟨[], []⟩ "alice" 0 ["t1", "t2", "t3", "t4", "t5"]).1 =
      CreateOutcome.unableToSave ∧
    LocalCache.is_thread
      (Server.create_thread ⟨[], []⟩ "alice" 0
        ["t1", "t2", "t3", "t4", "t5"]).2.cache "t1" = true ∧
    PostgresClient.is_thread
      (Server.create_thread ⟨[], []⟩ "alice" 0
        ["t1", "t2", "t3", "t4", "t5"]).2.db "t1" = true := by
  decide

theorem isDigit_digitCh (n : Nat) : (digitCh n).isDigit = true := by
  have h : n % 10 < 10 := Nat.mod_lt _ (by norm_num)
  unfold digitCh
  set k := n % 10 with hk
  interval_cases k <;> decide

theorem canonicalForm_fmtEpoch (t : Nat) : canonicalForm (fmtEpoch t) = true := by
  unfold fmtEpoch canonicalForm
  simp [pad4, pad2, pad6, isDigit_digitCh]

/-- C8 counterexample: the string `"2004-10-19T10:23:54"` parses under
`fromisoformat`, so the write path stores it verbatim, yet it is not in the
canonical `%Y-%m-%d %H:%M:%S.%f` form that numeric epochs are formatted to —
so values are not all normalized to one canonical textual form before
storage. -/
theorem C8_counterexample :
    normalizeTime 0 (PyTime.str "2004-10-19T10:23:54") =
      Except.ok "2004-10-19T10:23:54" ∧
    canonicalForm "2004-10-19T10:23:54" = false ∧
    canonicalForm (fmtEpoch 1) = true := by
  refine ⟨by decide, by decide, canonicalForm_fmtEpoch 1⟩

/-- C8 amended: a numeric epoch is formatted to the canonical
`%Y-%m-%d %H:%M:%S.%f` form; a timestamp string is validated with
`fromisoformat` and stored verbatim (even when not in canonical form), and an
unparsable string raises a validation error to the caller. -/
theorem C8_timestamp_normalization_amended :
    (∀ (now : Nat) (s : String), pyFromIsoformatOk s = true →
      normalizeTime now (PyTime.str s) = Except.ok s) ∧
    (∀ (now : Nat) (s : String), pyFromIsoformatOk s = false →
      normalizeTime now (PyTime.str s) = Except.error PyErr.valueError) ∧
    (∀ (now t : Nat), t ≠ 0 →
      normalizeTime now (PyTime.num t) = Except.ok (fmtEpoch t)) ∧
    (∀ t : Nat, canonicalForm (fmtEpoch t) = true) := by
  refine ⟨?_, ?_, ?_, canonicalForm_fmtEpoch⟩
  · intro now s h
    simp [normalizeTime, h]
  · intro now s h
    simp [normalizeTime, h]
  · intro now t h
    simp [normalizeTime, h]

/-- C8 witness: the amended normalization contract applied to a parsable
string, an unparsable string, and a non-zero epoch. -/
theorem C8_timestamp_normalization_amended_witness :
    pyFromIsoformatOk "2004-10-19 10:23:54.000000" = true ∧
    normalizeTime 0 (PyTime.str "2004-10-19 10:23:54.000000") =
      Except.ok "2004-10-19 10:23:54.000000" ∧
    pyFromIsoformatOk "not-a-timestamp" = false ∧
    normalizeTime 0 (PyTime.str "not-a-timestamp") =
      Except.error PyErr.valueError ∧
    normalizeTime 0 (PyTime.num 86400) = Except.ok (fmtEpoch 86400) :=
  ⟨by decide,
    C8_timestamp_normalization_amended.1 0 "2004-10-19 10:23:54.000000"
      (by decide),
    by decide,
    C8_timestamp_normalization_amended.2.1 0 "not-a-timestamp" (by decide),
    C8_timestamp_normalization_amended.2.2.1 0 86400 (by decide)⟩

/-- C9 witness: the shared-state theorem applied to a concrete two-instance
process. -/
theorem C9_instances_share_class_dict_witness :
    ([(Option.none : Option CacheData), Option.none].getD 0 Option.none =
      Option.none) ∧
    LocalCacheProcess.isThreadVia
      (LocalCacheProcess.createVia ⟨[], [Option.none, Option.none]⟩ 0 "t"
        (some "alice") 7).1 1 "t" = true :=
  ⟨by decide,
    (C9_instances_share_class_dict ⟨[], [Option.none, Option.none]⟩ 0 1 "t"
      "alice" 7 (by decide) (by decide) (by decide)).2.1⟩
